import Mathlib

/-!
Shallow embedding of the operator-conversion engine of
`onnx_chainer/functions/array.py` (onnx-chainer), together with proofs
about the converter functions the specification describes.

Machine integers of the source are modelled as `Int`/`Nat` (Python ints
are unbounded, so no wrap-around is needed); Python floats appearing as
node attribute values are modelled as `ℚ` (every concrete value involved
is a small decimal); fallible code returns `Except ConvError`.
-/

/-- An attribute value of a target-graph node: the spec's
`int|float|string|list<int>` scalar/list universe (list<float> never
occurs in the converters modelled here). -/
inductive AttrValue where
  | int : Int → AttrValue
  | float : ℚ → AttrValue
  | str : String → AttrValue
  | ints : List Int → AttrValue
deriving DecidableEq, Repr

/-- An IR node of the target interchange graph:
`{op_type, inputs, outputs, attributes}` as in the spec's data model. -/
structure IRNode where
  op_type : String
  inputs : List String
  outputs : List String
  attributes : List (String × AttrValue)
deriving DecidableEq, Repr

/-- Modelled from the spec: `onnx_helper.make_node` (onnx_helper.py is
not under src/) packages op type, inputs, outputs and keyword attributes
into one IR node record. -/
def make_node (op_type : String) (inputs outputs : List String)
    (attributes : List (String × AttrValue)) : IRNode :=
  ⟨op_type, inputs, outputs, attributes⟩

/-- Look an attribute up by key (the spec declares attributes to be a
map, so theorems query by key rather than by position). -/
def attrOf (n : IRNode) (key : String) : Option AttrValue :=
  (n.attributes.find? (fun p => p.fst == key)).map Prod.snd

/-- Errors raised by the converter functions.  `valueError` carries the
message of a Python `ValueError`; `assertionError` is a failing `assert`
statement; `indexError` is an out-of-range sequence subscript;
`zeroDivisionError` is division by zero; `unboundLocal` is the
`UnboundLocalError` Python raises when `return node,` runs although no
version branch assigned `node`; `opsetUnsupported` is the rejection of a
requested version outside the declared support band. -/
inductive ConvError where
  | valueError : String → ConvError
  | assertionError : ConvError
  | indexError : ConvError
  | zeroDivisionError : ConvError
  | unboundLocal : ConvError
  | opsetUnsupported : ConvError
deriving DecidableEq, Repr

/-- Python sequence subscript `l[i]`: a negative index counts from the
end; out of range yields no value (an `IndexError` at the call site). -/
def pyGet {α : Type} (l : List α) (i : Int) : Option α :=
  if i < 0 then
    if i + (l.length : Int) < 0 then Option.none
    else l.get? (i + (l.length : Int)).toNat
  else l.get? i.toNat

instance {ε α : Type} [DecidableEq ε] [DecidableEq α] :
    DecidableEq (Except ε α) := fun
  | .error a, .error b =>
      match decEq a b with
      | isTrue h => isTrue (h ▸ rfl)
      | isFalse h => isFalse (fun hh => h (Except.error.inj hh))
  | .error _, .ok _ => isFalse (fun hh => Except.noConfusion hh)
  | .ok _, .error _ => isFalse (fun hh => Except.noConfusion hh)
  | .ok a, .ok b =>
      match decEq a b with
      | isTrue h => isTrue (h ▸ rfl)
      | isFalse h => isFalse (fun hh => h (Except.ok.inj hh))

/-- The attribute `key` of the first node of a conversion result, when
the conversion succeeded and produced at least one node. -/
def firstAttr (r : Except ConvError (List IRNode)) (key : String) :
    Option AttrValue :=
  match r with
  | .ok (n :: _) => attrOf n key
  | _ => Option.none

/-- The attribute `key` of the first node of a (non-fallible) node list. -/
def firstAttrL (l : List IRNode) (key : String) : Option AttrValue :=
  match l with
  | n :: _ => attrOf n key
  | [] => Option.none

/-- The length of a list-of-ints attribute value, if it is one. -/
def intsLen (a : Option AttrValue) : Option Nat :=
  match a with
  | some (AttrValue.ints l) => some l.length
  | _ => Option.none

/-- The generated name of the `k`-th intermediate value of a
`GraphBuilder` (the concrete spelling is internal to the model; only
freshness and order matter). -/
def genName (k : Nat) : String :=
  "tmp" ++ toString k

/-- Modelled from the spec: `onnx_helper.GraphBuilder` (onnx_helper.py
is not under src/).  It queues nodes in creation order; `op` binds a
fresh auto-generated output name, `op_output_named` binds caller-given
final names, and `nodes` finalizes the queue, binding caller-supplied
output names to the final node of the chain. -/
structure GraphBuilder where
  queue : List IRNode
  fresh : Nat
deriving DecidableEq, Repr

/-- `GraphBuilder.op`: enqueue a single-output node under a fresh
generated name and return that name. -/
def GraphBuilder.op (gb : GraphBuilder) (op_type : String)
    (input_names : List String) (attrs : List (String × AttrValue)) :
    String × GraphBuilder :=
  let out := genName gb.fresh
  (out, ⟨gb.queue ++ [make_node op_type input_names [out] attrs], gb.fresh + 1⟩)

/-- `GraphBuilder.op_output_named`: enqueue a node bound directly to
caller-supplied final output names. -/
def GraphBuilder.op_output_named (gb : GraphBuilder) (op_type : String)
    (input_names output_names : List String)
    (attrs : List (String × AttrValue)) : GraphBuilder :=
  ⟨gb.queue ++ [make_node op_type input_names output_names attrs], gb.fresh⟩

/-- Rebind the outputs of the last node of a queue. -/
def rebindLast (outs : List String) : List IRNode → List IRNode
  | [] => []
  | [n] => [{ n with outputs := outs }]
  | n :: rest => n :: rebindLast outs rest

/-- `GraphBuilder.nodes`: finalize the queue; when output names are
supplied they are bound to the final node of the chain. -/
def GraphBuilder.nodes (gb : GraphBuilder) (output_names : Option (List String)) :
    List IRNode :=
  match output_names with
  | Option.none => gb.queue
  | some outs => rebindLast outs gb.queue

/-- One index specifier of `func.slices` in `convert_GetItem`: a slice
object, a Python int, a zero-rank ndarray, `None` (numpy's newaxis),
`Ellipsis`, or any other (unsupported) value carrying the name of its
Python type. -/
inductive IdxSpec where
  | slice : Option Int → Option Int → Option Int → IdxSpec
  | int : Int → IdxSpec
  | arr0 : Int → IdxSpec
  | newaxis : IdxSpec
  | ellipsis : IdxSpec
  | other : String → IdxSpec
deriving DecidableEq, BEq, Repr

/-- `idx_ is not None` on index specifiers. -/
def isNotNone (x : IdxSpec) : Bool :=
  !(x == IdxSpec.newaxis)

/-- The loop state of `convert_GetItem`: the five accumulator lists and
the `skipped` ellipsis offset. -/
structure GetItemState where
  axes : List Int
  starts : List Int
  ends : List Int
  squeeze_idxs : List Int
  unsqueeze_idxs : List Int
  skipped : Int
deriving DecidableEq, Repr

/-- The initial loop state of `convert_GetItem`. -/
def initGetItemState : GetItemState :=
  ⟨[], [], [], [], [], 0⟩

/-- The message of the `ValueError` raised for a non-unit slice step
(`'GetItem with {}step slicing is not supported in ONNX Slice
operator'.format(idx.step)`). -/
def stepSliceMsg (k : Int) : String :=
  "GetItem with " ++ toString k ++
    "step slicing is not supported in ONNX Slice operator"

/-- The message of the `ValueError` raised for an unsupported specifier
type in `convert_GetItem`. -/
def idxTypeMsg (tyName : String) : String :=
  "GetItem with type " ++ tyName ++
    " cannot handle in ONNX Slice, so that ONNX-Chainer does not accept the type"

/-- The slice branch of `convert_GetItem` after the step check: append
`axis`, `start or 0`, and `stop or x.shape[axis]` (the shape subscript
runs only when the stop is absent and can raise `IndexError`). -/
def getItemSliceCont (shape : List Nat) (st : GetItemState) (axis : Int)
    (start stop : Option Int) : Except ConvError GetItemState :=
  match stop with
  | some e =>
      .ok { st with axes := st.axes ++ [axis],
                    starts := st.starts ++ [start.getD 0],
                    ends := st.ends ++ [e] }
  | Option.none =>
      match pyGet shape axis with
      | some n =>
          .ok { st with axes := st.axes ++ [axis],
                        starts := st.starts ++ [start.getD 0],
                        ends := st.ends ++ [(n : Int)] }
      | Option.none => .error ConvError.indexError

/-- One iteration of the `for i, idx in enumerate(func.slices)` loop of
`convert_GetItem` (`rest` is `func.slices[i+1:]`, used by the ellipsis
branch). -/
def getItemStep (shape : List Nat) (i : Nat) (st : GetItemState)
    (idx : IdxSpec) (rest : List IdxSpec) : Except ConvError GetItemState :=
  let axis : Int := (i : Int) - (st.unsqueeze_idxs.length : Int) + st.skipped
  match idx with
  | .slice start stop step =>
      match step with
      | some k =>
          if k ≠ 1 then .error (.valueError (stepSliceMsg k))
          else getItemSliceCont shape st axis start stop
      | Option.none => getItemSliceCont shape st axis start stop
  | .int k =>
      .ok { st with axes := st.axes ++ [axis],
                    starts := st.starts ++ [k],
                    ends := st.ends ++ [k + 1],
                    squeeze_idxs := st.squeeze_idxs ++ [axis] }
  | .arr0 k =>
      .ok { st with axes := st.axes ++ [axis],
                    starts := st.starts ++ [k],
                    ends := st.ends ++ [k + 1],
                    squeeze_idxs := st.squeeze_idxs ++ [axis] }
  | .newaxis =>
      .ok { st with unsqueeze_idxs :=
              st.unsqueeze_idxs ++
                [(i : Int) - (st.squeeze_idxs.length : Int) + st.skipped] }
  | .ellipsis =>
      let rest_slice_len := (rest.filter isNotNone).length
      if st.skipped ≠ 0 then .error ConvError.assertionError
      else .ok { st with skipped :=
              (shape.length : Int) - axis - (rest_slice_len : Int) - 1 }
  | .other tyName => .error (.valueError (idxTypeMsg tyName))

/-- The whole specifier loop of `convert_GetItem`, threading the
enumeration index and the accumulator state. -/
def getItemLoop (shape : List Nat) : Nat → GetItemState → List IdxSpec →
    Except ConvError GetItemState
  | _, st, [] => .ok st
  | i, st, idx :: rest =>
      match getItemStep shape i st idx rest with
      | .error e => .error e
      | .ok st2 => getItemLoop shape (i + 1) st2 rest

/-- `convert_GetItem` of `onnx_chainer/functions/array.py`: translate an
index-specifier sequence over an input of the given shape into a Slice
node, then an optional Squeeze node, then an optional Unsqueeze node. -/
def convert_GetItem (shape : List Nat) (slices : List IdxSpec)
    (input_names output_names : List String) :
    Except ConvError (List IRNode) :=
  match getItemLoop shape 0 initGetItemState slices with
  | .error e => .error e
  | .ok st =>
      let gb : GraphBuilder := ⟨[], 0⟩
      let p1 := gb.op "Slice" input_names
        [("axes", .ints st.axes), ("starts", .ints st.starts),
         ("ends", .ints st.ends)]
      let p2 := if st.squeeze_idxs ≠ [] then
          p1.2.op "Squeeze" [p1.1] [("axes", .ints st.squeeze_idxs)]
        else p1
      let p3 := if st.unsqueeze_idxs ≠ [] then
          p2.2.op "Unsqueeze" [p2.1] [("axes", .ints st.unsqueeze_idxs)]
        else p2
      .ok (p3.2.nodes (some output_names))

/-- The padding widths `func.pad_bw` of `convert_Pad`: a 1-D array
(one `(begin, end)` row applied to every axis after `np.tile`) or a 2-D
array (one row per axis).  Rows are kept as plain lists so Python's
`pp[0]`/`pp[1]` subscripts keep their fallibility. -/
inductive PadBW where
  | one : List Int → PadBW
  | two : List (List Int) → PadBW
deriving DecidableEq, Repr

/-- The `constant_values` keyword of `convert_Pad`: a Python int or a
sequence of floats. -/
inductive ConstVals where
  | int : Int → ConstVals
  | seq : List ℚ → ConstVals
deriving DecidableEq, Repr

/-- The `for pp in pad_bw.tolist()` loop of `convert_Pad`: collect
`pp[0]` into `pad_begin` and `pp[1]` into `pad_end`, raising
`IndexError` on a short row. -/
def padBeginEnd : List (List Int) → Except ConvError (List Int × List Int)
  | [] => .ok ([], [])
  | pp :: rest =>
      match pyGet pp 0 with
      | Option.none => .error ConvError.indexError
      | some a =>
          match pyGet pp 1 with
          | Option.none => .error ConvError.indexError
          | some b =>
              match padBeginEnd rest with
              | .error e => .error e
              | .ok (pb, pe) => .ok (a :: pb, b :: pe)

/-- The `constant_values` handling of `convert_Pad`: more than one value
is rejected, a sequence is narrowed to `float(values[0])`, an int is
widened to `float(values)`. -/
def resolvePadValues : ConstVals → Except ConvError ℚ
  | .int n => .ok (n : ℚ)
  | .seq l =>
      if 1 < l.length then
        .error (.valueError
          "ONNX does not support multiple constant values for Pad operation")
      else
        match l.head? with
        | some q => .ok q
        | Option.none => .error ConvError.indexError

/-- `convert_Pad` of `onnx_chainer/functions/array.py`.  `rank` is
`len(func.inputs[0].shape)`, `keywords` holds the optional
`constant_values` entry of `func.keywords`.  A version outside the
branch set leaves Python's local `node` unbound (`unboundLocal`); the
`@support((1, 2))` decorator keeps such versions out in the source. -/
def convert_Pad (mode : String) (pad_bw : PadBW) (rank : Nat)
    (keywords : Option ConstVals) (opset_version : Nat)
    (input_names output_names : List String) :
    Except ConvError (List IRNode) :=
  if mode ∉ ["constant", "reflect", "edge"] then
    .error (.valueError (mode ++ " mode is not supported in ONNX Pad operation"))
  else
    let rows : List (List Int) :=
      match pad_bw with
      | .one row => List.replicate rank row
      | .two rows => rows
    match padBeginEnd rows with
    | .error e => .error e
    | .ok (pad_begin, pad_end) =>
        let pad := pad_begin ++ pad_end
        match keywords with
        | some cv =>
            match resolvePadValues cv with
            | .error e => .error e
            | .ok values =>
                match opset_version with
                | 1 => .ok [make_node "Pad" input_names output_names
                        [("mode", .str mode), ("paddings", .ints pad),
                         ("value", .float values)]]
                | 2 => .ok [make_node "Pad" input_names output_names
                        [("mode", .str mode), ("pads", .ints pad),
                         ("value", .float values)]]
                | _ => .error ConvError.unboundLocal
        | Option.none =>
            match opset_version with
            | 1 => .ok [make_node "Pad" input_names output_names
                    [("mode", .str mode), ("paddings", .ints pad),
                     ("value", .float 0)]]
            | 2 => .ok [make_node "Pad" input_names output_names
                    [("mode", .str mode), ("pads", .ints pad),
                     ("value", .float 0)]]
            | _ => .error ConvError.unboundLocal

/-- `indices_or_sections` of `convert_SplitAxis`: a non-iterable Python
int or an iterable of indices. -/
inductive IntOrList where
  | i : Int → IntOrList
  | l : List Int → IntOrList
deriving DecidableEq, Repr

/-- The `for i in indices_or_sections` loop of `convert_SplitAxis`:
successive differences against the running previous index. -/
def diffLoop (prev : Int) : List Int → List Int
  | [] => []
  | i :: rest => (i - prev) :: diffLoop i rest

/-- The `split` list computation of `convert_SplitAxis`: differences of
the indices, or `sections` copies of `shape[axis] // sections` (Python
floor division; `IndexError` on a bad axis and `ZeroDivisionError` on
zero sections can be raised, in that order). -/
def splitOf (shape : List Nat) (axis : Int) : IntOrList →
    Except ConvError (List Int)
  | .l xs => .ok (diffLoop 0 xs)
  | .i n =>
      match pyGet shape axis with
      | Option.none => .error ConvError.indexError
      | some s =>
          if n = 0 then .error ConvError.zeroDivisionError
          else .ok (List.replicate n.toNat (Int.fdiv (s : Int) n))

/-- `convert_SplitAxis` of `onnx_chainer/functions/array.py`.  Versions
outside the declared `@support((1, 2))` band are rejected
(`opsetUnsupported`, modelled from the spec since opset_version.py is
not under src/). -/
def convert_SplitAxis (shape : List Nat) (axis : Int)
    (indices : Option (List Int)) (sections : IntOrList)
    (opset_version : Nat) (input_names output_names : List String) :
    Except ConvError (List IRNode) :=
  let indices_or_sections :=
    match indices with
    | some xs => IntOrList.l xs
    | Option.none => sections
  match splitOf shape axis indices_or_sections with
  | .error e => .error e
  | .ok split =>
      match opset_version with
      | 1 => .ok [make_node "Split" input_names output_names
              [("axis", .int axis), ("split", .ints split)]]
      | 2 => .ok [make_node "Split" input_names output_names
              [("axis", .int axis), ("split", .ints split)]]
      | _ => .error ConvError.opsetUnsupported

/-- `convert_ExpandDims` of `onnx_chainer/functions/array.py`: a
negative axis is shifted by `len(func.inputs[0].shape) + 1`, then a
single Unsqueeze node is emitted. -/
def convert_ExpandDims (rank : Nat) (axisArg : Int)
    (input_names output_names : List String) : List IRNode :=
  let axis : Int := if axisArg < 0 then (rank : Int) + 1 + axisArg else axisArg
  [make_node "Unsqueeze" input_names output_names [("axes", .ints [axis])]]

/-- The `[gb.op('Unsqueeze', [name], axes=axes) for name in input_names]`
comprehension shared by the stacking converters: one single-input node
per name, in order, collecting the generated output names. -/
def gbMapOp (gb : GraphBuilder) (op_type : String)
    (attrs : List (String × AttrValue)) :
    List String → List String × GraphBuilder
  | [] => ([], gb)
  | nm :: rest =>
      let p := gb.op op_type [nm] attrs
      let q := gbMapOp p.2 op_type attrs rest
      (p.1 :: q.1, q.2)

/-- `convert_Stack` of `onnx_chainer/functions/array.py`: adjust a
negative axis, unsqueeze every input at that axis, then concat. -/
def convert_Stack (shape : List Nat) (axisArg : Int)
    (input_names output_names : List String) : List IRNode :=
  let gb : GraphBuilder := ⟨[], 0⟩
  let axis : Int := if axisArg < 0 then (shape.length : Int) + 1 + axisArg
    else axisArg
  let p := gbMapOp gb "Unsqueeze" [("axes", .ints [axis])] input_names
  let gb2 := p.2.op_output_named "Concat" p.1 output_names [("axis", .int axis)]
  gb2.nodes Option.none

/-- `convert_Hstack` of `onnx_chainer/functions/array.py`.
`input0_ndim` is `len(func.inputs[0].shape)`. -/
def convert_Hstack (input0_ndim : Nat)
    (input_names output_names : List String) : List IRNode :=
  let gb : GraphBuilder := ⟨[], 0⟩
  if input0_ndim = 0 then
    let p := gbMapOp gb "Unsqueeze" [("axes", .ints [0])] input_names
    (p.2.op_output_named "Concat" p.1 output_names [("axis", .int 0)]).nodes
      Option.none
  else if input0_ndim = 1 then
    (gb.op_output_named "Concat" input_names output_names
      [("axis", .int 0)]).nodes Option.none
  else
    (gb.op_output_named "Concat" input_names output_names
      [("axis", .int 1)]).nodes Option.none

/-- `convert_Vstack` of `onnx_chainer/functions/array.py`. -/
def convert_Vstack (input0_ndim : Nat)
    (input_names output_names : List String) : List IRNode :=
  let gb : GraphBuilder := ⟨[], 0⟩
  if input0_ndim = 0 then
    let p := gbMapOp gb "Unsqueeze" [("axes", .ints [0, 1])] input_names
    (p.2.op_output_named "Concat" p.1 output_names [("axis", .int 0)]).nodes
      Option.none
  else if input0_ndim = 1 then
    let p := gbMapOp gb "Unsqueeze" [("axes", .ints [0])] input_names
    (p.2.op_output_named "Concat" p.1 output_names [("axis", .int 0)]).nodes
      Option.none
  else
    (gb.op_output_named "Concat" input_names output_names
      [("axis", .int 0)]).nodes Option.none

/-- `convert_Dstack` of `onnx_chainer/functions/array.py`. -/
def convert_Dstack (input0_ndim : Nat)
    (input_names output_names : List String) : List IRNode :=
  let gb : GraphBuilder := ⟨[], 0⟩
  if input0_ndim = 0 then
    let p := gbMapOp gb "Unsqueeze" [("axes", .ints [0, 1, 2])] input_names
    (p.2.op_output_named "Concat" p.1 output_names [("axis", .int 2)]).nodes
      Option.none
  else if input0_ndim = 1 then
    let p := gbMapOp gb "Unsqueeze" [("axes", .ints [0, 2])] input_names
    (p.2.op_output_named "Concat" p.1 output_names [("axis", .int 2)]).nodes
      Option.none
  else if input0_ndim = 2 then
    let p := gbMapOp gb "Unsqueeze" [("axes", .ints [2])] input_names
    (p.2.op_output_named "Concat" p.1 output_names [("axis", .int 2)]).nodes
      Option.none
  else
    (gb.op_output_named "Concat" input_names output_names
      [("axis", .int 2)]).nodes Option.none

/-- `isBadStep` holds of a slice specifier whose step is present and not
equal to 1 (the condition of the step-slicing rejection). -/
def isBadStep : IdxSpec → Bool
  | .slice _ _ (some k) => k != 1
  | _ => false

/-- The generated names `genName k, genName (k+1), ...` (`n` of them). -/
def genNames (k : Nat) : Nat → List String
  | 0 => []
  | m + 1 => genName k :: genNames (k + 1) m

/-- The chain of single-input nodes a builder comprehension produces:
the `j`-th node maps the `j`-th input name to `genName (k + j)`. -/
def unsqChain (op_type : String) (attrs : List (String × AttrValue))
    (k : Nat) : List String → List IRNode
  | [] => []
  | nm :: rest =>
      make_node op_type [nm] [genName k] attrs :: unsqChain op_type attrs (k + 1) rest

/-- Follows the amended claim C4's words: each input is unsqueezed with
the given axes (when any are given) and a single Concat node over the
unsqueezed outputs — in the original input order — with the given axis
follows; with no unsqueeze axes the inputs are concatenated directly. -/
def unsqueezeThenConcat (uAxes : Option (List Int)) (cAxis : Int)
    (names outs : List String) : List IRNode :=
  match uAxes with
  | Option.none => [make_node "Concat" names outs [("axis", .int cAxis)]]
  | some ax =>
      unsqChain "Unsqueeze" [("axes", .ints ax)] 0 names ++
        [make_node "Concat" (genNames 0 names.length) outs
          [("axis", .int cAxis)]]

/-- Follows the claim C10's words: the successive differences of the
indices, starting from 0. -/
def sucDiffs (xs : List Int) : List Int :=
  List.zipWith (fun a b => a - b) xs (0 :: xs)

lemma diffLoop_eq_sucDiffs (xs : List Int) : ∀ p : Int,
    diffLoop p xs = List.zipWith (fun a b => a - b) xs (p :: xs) := by
  induction xs with
  | nil => intro p; rfl
  | cons a t ih =>
      intro p
      simp only [diffLoop, List.zipWith]
      exact congrArg _ (ih a)

lemma gbMapOp_eq (op_type : String) (attrs : List (String × AttrValue)) :
    ∀ (names : List String) (gb : GraphBuilder),
    gbMapOp gb op_type attrs names =
      (genNames gb.fresh names.length,
       ⟨gb.queue ++ unsqChain op_type attrs gb.fresh names,
        gb.fresh + names.length⟩) := by
  intro names
  induction names with
  | nil =>
      intro gb
      simp [gbMapOp, genNames, unsqChain]
  | cons nm rest ih =>
      intro gb
      simp only [gbMapOp, GraphBuilder.op, ih, List.length_cons, genNames,
        unsqChain, GraphBuilder.mk.injEq, Prod.mk.injEq]
      refine ⟨trivial, by simp, by omega⟩

lemma getItemLoop_err_of_badStep (shape : List Nat) :
    ∀ (specs : List IdxSpec) (i : Nat) (st : GetItemState),
    specs.any isBadStep = true →
    ∃ e, getItemLoop shape i st specs = .error e := by
  intro specs
  induction specs with
  | nil => intro i st h; simp [List.any] at h
  | cons idx rest ih =>
      intro i st h
      rw [List.any_cons, Bool.or_eq_true] at h
      cases hstep : getItemStep shape i st idx rest with
      | error e =>
          refine ⟨e, ?_⟩
          simp [getItemLoop, hstep]
      | ok st2 =>
          rcases h with hbad | htail
          · exfalso
            match idx, hbad with
            | .slice start stop (some k), hbad =>
                have hk : k ≠ 1 := by
                  simpa [isBadStep] using hbad
                rw [getItemStep, if_pos hk] at hstep
                exact Except.noConfusion hstep
          · obtain ⟨e, he⟩ := ih (i + 1) st2 htail
            refine ⟨e, ?_⟩
            simp [getItemLoop, hstep, he]

/-- Claim C1 (corrected).  For a rank-4 source array indexed by
`[2, slice(None), newAxis, ellipsis]`, the translator produces
`axes = [0, 1]`, `starts = [2, 0]`, `ends = [3, shape[1]]` — the full
slice `slice(None)` contributes its own entry (axis 1, start 0, end
`shape[1]`), contrary to the claim's `axes = [0]`, `starts = [2]`,
`ends = [3]` — together with `squeezeAxes = [0]` and
`unsqueezeAxes = [1]` as claimed; the emitted chain is
Slice, then Squeeze, then Unsqueeze. -/
theorem C1_getitem_rank4_translation (s0 s1 s2 s3 : Nat)
    (ins outs : List String) :
    getItemLoop [s0, s1, s2, s3] 0 initGetItemState
        [.int 2, .slice Option.none Option.none Option.none, .newaxis,
         .ellipsis]
      = .ok ⟨[0, 1], [2, 0], [3, (s1 : Int)], [0], [1], 1⟩
    ∧ convert_GetItem [s0, s1, s2, s3]
        [.int 2, .slice Option.none Option.none Option.none, .newaxis,
         .ellipsis] ins outs
      = .ok [make_node "Slice" ins [genName 0]
               [("axes", .ints [0, 1]), ("starts", .ints [2, 0]),
                ("ends", .ints [3, (s1 : Int)])],
             make_node "Squeeze" [genName 0] [genName 1]
               [("axes", .ints [0])],
             make_node "Unsqueeze" [genName 1] outs
               [("axes", .ints [1])]] :=
  ⟨rfl, rfl⟩

/-- Claim C1 counterexample: on the concrete rank-4 shape `[4, 5, 6, 7]`
the Slice node's `axes` attribute is `[0, 1]`, not the claimed `[0]`. -/
theorem C1_counterexample :
    firstAttr (convert_GetItem [4, 5, 6, 7]
        [.int 2, .slice Option.none Option.none Option.none, .newaxis,
         .ellipsis] ["x"] ["y"]) "axes"
      ≠ some (AttrValue.ints [0]) := by
  decide

/-- Claim C2 (corrected).  For a rank-5 source array indexed by
`[1, ellipsis, 3]` the ellipsis stands for the 3 implicit dimensions
1, 2, 3 (the index-rolling offset `skipped` becomes 2, so the trailing
integer index lands on axis 4), but the ellipsis contributes no entries
of its own: `axes/starts/ends` hold exactly the 2 entries of the two
explicit integer indices (`axes = [0, 4]`, `starts = [1, 3]`,
`ends = [2, 4]`), not 5. -/
theorem C2_getitem_rank5_ellipsis (s0 s1 s2 s3 s4 : Nat)
    (ins outs : List String) :
    getItemLoop [s0, s1, s2, s3, s4] 0 initGetItemState
        [.int 1, .ellipsis, .int 3]
      = .ok ⟨[0, 4], [1, 3], [2, 4], [0, 4], [], 2⟩
    ∧ convert_GetItem [s0, s1, s2, s3, s4] [.int 1, .ellipsis, .int 3]
        ins outs
      = .ok [make_node "Slice" ins [genName 0]
               [("axes", .ints [0, 4]), ("starts", .ints [1, 3]),
                ("ends", .ints [2, 4])],
             make_node "Squeeze" [genName 0] outs
               [("axes", .ints [0, 4])]] :=
  ⟨rfl, rfl⟩

/-- Claim C2 counterexample: on the concrete rank-5 shape
`[3, 3, 3, 3, 3]` the Slice node's `axes` attribute has 2 entries, not
the 5 the claim requires (2 explicit plus 3 for the ellipsis). -/
theorem C2_counterexample :
    intsLen (firstAttr (convert_GetItem [3, 3, 3, 3, 3]
        [.int 1, .ellipsis, .int 3] ["x"] ["y"]) "axes")
      ≠ some 5 := by
  decide

/-- Claim C8 (corrected).  The ellipsis duplicate check is the internal
assertion `skipped == 0`, never the user-facing indexing `ValueError`;
but it fails on a second ellipsis only when the first one stood for at
least one implicit dimension.  On a rank-3 array `[..., ...]` the first
ellipsis sets `skipped = 1` and the second fails the assertion. -/
theorem C8_double_ellipsis_assertion (s0 s1 s2 : Nat)
    (ins outs : List String) :
    convert_GetItem [s0, s1, s2] [.ellipsis, .ellipsis] ins outs
      = .error ConvError.assertionError
    ∧ ∀ msg, convert_GetItem [s0, s1, s2] [.ellipsis, .ellipsis] ins outs
        ≠ .error (.valueError msg) := by
  have h1 : convert_GetItem [s0, s1, s2] [.ellipsis, .ellipsis] ins outs
      = .error ConvError.assertionError := rfl
  refine ⟨h1, ?_⟩
  intro msg hmsg
  rw [h1] at hmsg
  simp at hmsg

/-- Claim C8 counterexample: on a rank-2 array the first ellipsis sets
`skipped = 0`, so a second ellipsis passes the assertion and the whole
conversion succeeds — the claimed at-most-one-ellipsis rule is not
enforced there at all. -/
theorem C8_counterexample :
    convert_GetItem [2, 2] [.ellipsis, .ellipsis] ["x"] ["y"]
      = .ok [make_node "Slice" ["x"] ["y"]
              [("axes", .ints []), ("starts", .ints []),
               ("ends", .ints [])]] :=
  rfl

/-- Claim C6 (confirmed).  Stacking 3 rank-1 inputs along axis 0 emits
exactly 3 Unsqueeze nodes, one per input in order, each inserting
axis 0, followed by exactly 1 Concat node whose input list is the 3
generated Unsqueeze output names in the original input order. -/
theorem C6_stack_decomposition (s0 : Nat) (a b c : String)
    (outs : List String) :
    convert_Stack [s0] 0 [a, b, c] outs =
      [make_node "Unsqueeze" [a] [genName 0] [("axes", .ints [0])],
       make_node "Unsqueeze" [b] [genName 1] [("axes", .ints [0])],
       make_node "Unsqueeze" [c] [genName 2] [("axes", .ints [0])],
       make_node "Concat" [genName 0, genName 1, genName 2] outs
         [("axis", .int 0)]] :=
  rfl

/-- Claim C9 (confirmed).  `convert_ExpandDims` emits one Unsqueeze
node whose `axes` attribute is `[rank + 1 + axis]` for a negative axis
and `[axis]` for a non-negative one. -/
theorem C9_expanddims_axes (r : Nat) (a : Int) (ins outs : List String) :
    (a < 0 → firstAttrL (convert_ExpandDims r a ins outs) "axes"
        = some (AttrValue.ints [(r : Int) + 1 + a]))
    ∧ (0 ≤ a → firstAttrL (convert_ExpandDims r a ins outs) "axes"
        = some (AttrValue.ints [a])) := by
  constructor
  · intro h
    show firstAttrL [make_node "Unsqueeze" ins outs
      [("axes", AttrValue.ints [if a < 0 then (r : Int) + 1 + a else a])]]
      "axes" = _
    rw [if_pos h]
    rfl
  · intro h
    show firstAttrL [make_node "Unsqueeze" ins outs
      [("axes", AttrValue.ints [if a < 0 then (r : Int) + 1 + a else a])]]
      "axes" = _
    rw [if_neg (not_lt.mpr h)]
    rfl

/-- Witness for C9 at rank 3 with axes −1 and 2. -/
theorem C9_witness :
    firstAttrL (convert_ExpandDims 3 (-1) ["x"] ["y"]) "axes"
      = some (AttrValue.ints [3])
    ∧ firstAttrL (convert_ExpandDims 3 2 ["x"] ["y"]) "axes"
      = some (AttrValue.ints [2]) :=
  ⟨(C9_expanddims_axes 3 (-1) ["x"] ["y"]).1 (by decide),
   (C9_expanddims_axes 3 2 ["x"] ["y"]).2 (by decide)⟩

/-- Claim C3 (corrected).  Whenever the specifier sequence contains a
slice whose step is present and not 1, `convert_GetItem` raises some
conversion error — so zero target nodes are emitted — and it raises the
step-slicing `ValueError` itself whenever no earlier specifier fails
first (here: when the offending slice leads the sequence). -/
theorem C3_badstep_conversion_fails (shape : List Nat)
    (specs rest : List IdxSpec) (ins outs : List String)
    (start stop : Option Int) (k : Int) :
    (specs.any isBadStep = true →
      ∃ e, convert_GetItem shape specs ins outs = .error e)
    ∧ (k ≠ 1 →
      convert_GetItem shape (.slice start stop (some k) :: rest) ins outs
        = .error (.valueError (stepSliceMsg k))) := by
  constructor
  · intro h
    obtain ⟨e, he⟩ := getItemLoop_err_of_badStep shape specs 0
      initGetItemState h
    exact ⟨e, by simp [convert_GetItem, he]⟩
  · intro hk
    have hstep : getItemStep shape 0 initGetItemState
        (.slice start stop (some k)) rest
        = .error (.valueError (stepSliceMsg k)) := by
      simp only [getItemStep]
      rw [if_pos hk]
    simp [convert_GetItem, getItemLoop, hstep]

/-- Witness for C3: a leading step-2 slice is rejected with the
step-slicing error. -/
theorem C3_witness :
    (∃ e, convert_GetItem [4] [.slice Option.none Option.none (some 2)]
        ["x"] ["y"] = .error e)
    ∧ convert_GetItem [4] [.slice Option.none Option.none (some 2)]
        ["x"] ["y"] = .error (.valueError (stepSliceMsg 2)) :=
  ⟨(C3_badstep_conversion_fails [4]
      [.slice Option.none Option.none (some 2)] [] ["x"] ["y"]
      Option.none Option.none 2).1 (by decide),
   (C3_badstep_conversion_fails [4]
      [.slice Option.none Option.none (some 2)] [] ["x"] ["y"]
      Option.none Option.none 2).2 (by decide)⟩

/-- Claim C3 counterexample: a sequence containing a step-2 slice whose
first specifier is an unsupported advanced index raises the
indexing-type `ValueError`, not the step-slicing one. -/
theorem C3_counterexample :
    convert_GetItem [2, 2]
        [.other "list", .slice Option.none Option.none (some 2)]
        ["x"] ["y"]
      ≠ .error (.valueError (stepSliceMsg 2)) := by
  decide

/-- Claim C5 (confirmed).  Padding widths `[[1,1],[2,2]]` with constant
fill 5 on a rank-2 input yield, at version 1, a Pad node carrying
`paddings = [1,2,1,2]` and `value = 5.0` (and no `pads` key); at
version 2 the key is `pads` instead of `paddings`, with the same list
and value. -/
theorem C5_pad_attribute_renaming :
    convert_Pad "constant" (.two [[1, 1], [2, 2]]) 2 (some (.int 5)) 1
        ["x"] ["y"]
      = .ok [make_node "Pad" ["x"] ["y"]
          [("mode", .str "constant"), ("paddings", .ints [1, 2, 1, 2]),
           ("value", .float 5)]]
    ∧ convert_Pad "constant" (.two [[1, 1], [2, 2]]) 2 (some (.int 5)) 2
        ["x"] ["y"]
      = .ok [make_node "Pad" ["x"] ["y"]
          [("mode", .str "constant"), ("pads", .ints [1, 2, 1, 2]),
           ("value", .float 5)]]
    ∧ firstAttr (convert_Pad "constant" (.two [[1, 1], [2, 2]]) 2
        (some (.int 5)) 1 ["x"] ["y"]) "pads" = Option.none
    ∧ firstAttr (convert_Pad "constant" (.two [[1, 1], [2, 2]]) 2
        (some (.int 5)) 2 ["x"] ["y"]) "paddings" = Option.none := by
  refine ⟨by decide, by decide, by decide, by decide⟩

lemma convert_Pad_constant_eq (cv : ConstVals) (v : Nat)
    (ins outs : List String) :
    convert_Pad "constant" (.two [[1, 1], [2, 2]]) 2 (some cv) v ins outs
      = match resolvePadValues cv with
        | .error e => .error e
        | .ok values =>
            match v with
            | 1 => .ok [make_node "Pad" ins outs
                [("mode", .str "constant"), ("paddings", .ints [1, 2, 1, 2]),
                 ("value", .float values)]]
            | 2 => .ok [make_node "Pad" ins outs
                [("mode", .str "constant"), ("pads", .ints [1, 2, 1, 2]),
                 ("value", .float values)]]
            | _ => .error ConvError.unboundLocal := by
  rfl

/-- Claim C7 (confirmed).  A `constant_values` fill holding more than
one value is rejected with the multiple-constant-values `ValueError`
(whatever the requested version); a single-element fill is accepted and
encoded as the float `value` attribute, as is a scalar int fill. -/
theorem C7_pad_multi_value_fill (l : List ℚ) (q : ℚ) (n : Int)
    (v vAny : Nat) (ins outs : List String)
    (hl : 1 < l.length) (hv : v = 1 ∨ v = 2) :
    convert_Pad "constant" (.two [[1, 1], [2, 2]]) 2 (some (.seq l)) vAny
        ins outs
      = .error (.valueError
          "ONNX does not support multiple constant values for Pad operation")
    ∧ firstAttr (convert_Pad "constant" (.two [[1, 1], [2, 2]]) 2
        (some (.seq [q])) v ins outs) "value" = some (.float q)
    ∧ firstAttr (convert_Pad "constant" (.two [[1, 1], [2, 2]]) 2
        (some (.int n)) v ins outs) "value" = some (.float (n : ℚ)) := by
  refine ⟨?_, ?_, ?_⟩
  · rw [convert_Pad_constant_eq]
    have hres : resolvePadValues (.seq l) = .error (.valueError
        "ONNX does not support multiple constant values for Pad operation") := by
      simp only [resolvePadValues]
      rw [if_pos hl]
    rw [hres]
  · rcases hv with hv | hv <;> subst hv <;> rfl
  · rcases hv with hv | hv <;> subst hv <;> rfl

/-- Witness for C7: the two-element fill `[1, 2]` is rejected even at
the unsupported version 7; the one-element fill `[5]` and the int fill
`7` are encoded as float values at version 1. -/
theorem C7_witness :
    convert_Pad "constant" (.two [[1, 1], [2, 2]]) 2
        (some (.seq [1, 2])) 7 ["x"] ["y"]
      = .error (.valueError
          "ONNX does not support multiple constant values for Pad operation")
    ∧ firstAttr (convert_Pad "constant" (.two [[1, 1], [2, 2]]) 2
        (some (.seq [5])) 1 ["x"] ["y"]) "value"
      = some (.float 5)
    ∧ firstAttr (convert_Pad "constant" (.two [[1, 1], [2, 2]]) 2
        (some (.int 7)) 1 ["x"] ["y"]) "value"
      = some (.float ((7 : Int) : ℚ)) :=
  C7_pad_multi_value_fill [1, 2] 5 7 1 7 ["x"] ["y"] (by decide) (Or.inl rfl)

/-- Claim C4 (corrected).  The per-input unsqueeze of the stacking
converters is chosen by input rank, but not quite as claimed: rank-0
inputs are unsqueezed to the target minimum rank (1 for horizontal, 2
for vertical, 3 — not 1 or 2 — for depth); rank-1 inputs are unsqueezed
for vertical as well as depth stacking (not only depth); depth stacking
also unsqueezes rank-2 inputs; inputs of rank at least the target
minimum (2, 2, 3 respectively) are concatenated directly. -/
theorem C4_stack_rank_dispatch (names outs : List String) (r : Nat) :
    convert_Hstack 0 names outs = unsqueezeThenConcat (some [0]) 0 names outs
    ∧ convert_Hstack 1 names outs = unsqueezeThenConcat Option.none 0 names outs
    ∧ (2 ≤ r →
        convert_Hstack r names outs
          = unsqueezeThenConcat Option.none 1 names outs)
    ∧ convert_Vstack 0 names outs
        = unsqueezeThenConcat (some [0, 1]) 0 names outs
    ∧ convert_Vstack 1 names outs = unsqueezeThenConcat (some [0]) 0 names outs
    ∧ (2 ≤ r →
        convert_Vstack r names outs
          = unsqueezeThenConcat Option.none 0 names outs)
    ∧ convert_Dstack 0 names outs
        = unsqueezeThenConcat (some [0, 1, 2]) 2 names outs
    ∧ convert_Dstack 1 names outs
        = unsqueezeThenConcat (some [0, 2]) 2 names outs
    ∧ convert_Dstack 2 names outs = unsqueezeThenConcat (some [2]) 2 names outs
    ∧ (3 ≤ r →
        convert_Dstack r names outs
          = unsqueezeThenConcat Option.none 2 names outs) := by
  refine ⟨?_, ?_, ?_, ?_, ?_, ?_, ?_, ?_, ?_, ?_⟩
  · simp [convert_Hstack, gbMapOp_eq, GraphBuilder.op_output_named,
      GraphBuilder.nodes, unsqueezeThenConcat]
  · simp [convert_Hstack, GraphBuilder.op_output_named, GraphBuilder.nodes,
      unsqueezeThenConcat]
  · intro h
    have h0 : r ≠ 0 := by omega
    have h1 : r ≠ 1 := by omega
    simp [convert_Hstack, h0, h1, GraphBuilder.op_output_named,
      GraphBuilder.nodes, unsqueezeThenConcat]
  · simp [convert_Vstack, gbMapOp_eq, GraphBuilder.op_output_named,
      GraphBuilder.nodes, unsqueezeThenConcat]
  · simp [convert_Vstack, gbMapOp_eq, GraphBuilder.op_output_named,
      GraphBuilder.nodes, unsqueezeThenConcat]
  · intro h
    have h0 : r ≠ 0 := by omega
    have h1 : r ≠ 1 := by omega
    simp [convert_Vstack, h0, h1, GraphBuilder.op_output_named,
      GraphBuilder.nodes, unsqueezeThenConcat]
  · simp [convert_Dstack, gbMapOp_eq, GraphBuilder.op_output_named,
      GraphBuilder.nodes, unsqueezeThenConcat]
  · simp [convert_Dstack, gbMapOp_eq, GraphBuilder.op_output_named,
      GraphBuilder.nodes, unsqueezeThenConcat]
  · simp [convert_Dstack, gbMapOp_eq, GraphBuilder.op_output_named,
      GraphBuilder.nodes, unsqueezeThenConcat]
  · intro h
    have h0 : r ≠ 0 := by omega
    have h1 : r ≠ 1 := by omega
    have h2 : r ≠ 2 := by omega
    simp [convert_Dstack, h0, h1, h2, GraphBuilder.op_output_named,
      GraphBuilder.nodes, unsqueezeThenConcat]

/-- Witness for C4 at two inputs and rank 3 for the direct-concat
cases. -/
theorem C4_witness :
    convert_Hstack 0 ["a", "b"] ["y"]
      = unsqueezeThenConcat (some [0]) 0 ["a", "b"] ["y"]
    ∧ convert_Hstack 1 ["a", "b"] ["y"]
      = unsqueezeThenConcat Option.none 0 ["a", "b"] ["y"]
    ∧ convert_Hstack 3 ["a", "b"] ["y"]
      = unsqueezeThenConcat Option.none 1 ["a", "b"] ["y"]
    ∧ convert_Vstack 0 ["a", "b"] ["y"]
      = unsqueezeThenConcat (some [0, 1]) 0 ["a", "b"] ["y"]
    ∧ convert_Vstack 1 ["a", "b"] ["y"]
      = unsqueezeThenConcat (some [0]) 0 ["a", "b"] ["y"]
    ∧ convert_Vstack 3 ["a", "b"] ["y"]
      = unsqueezeThenConcat Option.none 0 ["a", "b"] ["y"]
    ∧ convert_Dstack 0 ["a", "b"] ["y"]
      = unsqueezeThenConcat (some [0, 1, 2]) 2 ["a", "b"] ["y"]
    ∧ convert_Dstack 1 ["a", "b"] ["y"]
      = unsqueezeThenConcat (some [0, 2]) 2 ["a", "b"] ["y"]
    ∧ convert_Dstack 2 ["a", "b"] ["y"]
      = unsqueezeThenConcat (some [2]) 2 ["a", "b"] ["y"]
    ∧ convert_Dstack 3 ["a", "b"] ["y"]
      = unsqueezeThenConcat Option.none 2 ["a", "b"] ["y"] := by
  have h := C4_stack_rank_dispatch ["a", "b"] ["y"] 3
  exact ⟨h.1, h.2.1, h.2.2.1 (by omega), h.2.2.2.1, h.2.2.2.2.1,
    h.2.2.2.2.2.1 (by omega), h.2.2.2.2.2.2.1, h.2.2.2.2.2.2.2.1,
    h.2.2.2.2.2.2.2.2.1, h.2.2.2.2.2.2.2.2.2 (by omega)⟩

/-- Claim C4 counterexample: vertical stacking of rank-1 inputs does
emit Unsqueeze nodes, contradicting the claim that rank-1 inputs are
unsqueezed only for depth stacking. -/
theorem C4_counterexample :
    (convert_Vstack 1 ["a"] ["y"]).any
        (fun n => n.op_type == "Unsqueeze") = true := by
  decide

/-- Claim C10 (confirmed).  With no indices and a non-iterable integer
`sections = n`, the Split node's `split` attribute is `n` copies of
`shape[axis] // n` (floor division), whose sum falls short of the axis
extent whenever `n` does not divide it; with an iterable of indices,
the `split` entries are the successive differences of the indices
starting from 0. -/
theorem C10_splitaxis_split (shape : List Nat) (axis : Int) (s n : Nat)
    (xs : List Int) (sections : IntOrList) (v : Nat)
    (ins outs : List String) (hs : pyGet shape axis = some s)
    (hn : 0 < n) (hv : v = 1 ∨ v = 2) :
    convert_SplitAxis shape axis Option.none (.i (n : Int)) v ins outs
      = .ok [make_node "Split" ins outs
          [("axis", .int axis),
           ("split", .ints (List.replicate n ((s / n : Nat) : Int)))]]
    ∧ (¬ (n ∣ s) →
        (List.replicate n ((s / n : Nat) : Int)).sum ≠ (s : Int))
    ∧ convert_SplitAxis shape axis (some xs) sections v ins outs
      = .ok [make_node "Split" ins outs
          [("axis", .int axis), ("split", .ints (sucDiffs xs))]] := by
  have hsplit : splitOf shape axis (.i (n : Int))
      = .ok (List.replicate n ((s / n : Nat) : Int)) := by
    simp only [splitOf, hs]
    rw [if_neg (by exact_mod_cast hn.ne')]
    rw [Int.toNat_ofNat]
    rw [Int.fdiv_eq_ediv _ (by positivity)]
    rw [← Int.ofNat_ediv]
  refine ⟨?_, ?_, ?_⟩
  · rcases hv with hv | hv <;> subst hv <;>
      simp [convert_SplitAxis, hsplit]
  · intro hd heq
    rw [List.sum_replicate, nsmul_eq_mul] at heq
    have heqn : n * (s / n) = s := by exact_mod_cast heq
    exact hd ⟨s / n, heqn.symm⟩
  · rcases hv with hv | hv <;> subst hv <;>
      simp [convert_SplitAxis, splitOf, diffLoop_eq_sucDiffs, sucDiffs]

/-- Witness for C10: splitting extent 7 into 2 sections gives
`split = [3, 3]` whose sum is not 7; indices `[3, 5]` give
`split = [3, 2]`. -/
theorem C10_witness :
    convert_SplitAxis [7] 0 Option.none (.i ((2 : Nat) : Int)) 1 ["x"]
        ["y1", "y2"]
      = .ok [make_node "Split" ["x"] ["y1", "y2"]
          [("axis", .int 0),
           ("split", .ints (List.replicate 2 (((7 : Nat) / 2 : Nat) : Int)))]]
    ∧ (List.replicate 2 (((7 : Nat) / 2 : Nat) : Int)).sum ≠ ((7 : Nat) : Int)
    ∧ convert_SplitAxis [7] 0 (some [3, 5]) (.i 9) 1 ["x"] ["y1", "y2"]
      = .ok [make_node "Split" ["x"] ["y1", "y2"]
          [("axis", .int 0), ("split", .ints (sucDiffs [3, 5]))]] := by
  have h := C10_splitaxis_split [7] 0 7 2 [3, 5] (.i 9) 1 ["x"]
    ["y1", "y2"] (by decide) (by decide) (Or.inl rfl)
  exact ⟨h.1, h.2.1 (by decide), h.2.2⟩
